import Mathlib

/-!
Shallow embedding of the shutter-controller firmware `src/main.c`
(a window-shutter controller: two buttons, a serial command channel,
a 1 ms timer tick that estimates the shutter position, and a
state-machine control loop).

Machine integers are modelled as `Nat` (the firmware's `uint8_t` and
`unsigned int` variables never underflow: every decrement is guarded
by a non-zero test, and every value stays far below the type bounds).
The two output port bits are modelled as `Bool`s holding the literal
bit value of PORTB: `motorBit = true` means the MOTOR bit is set,
i.e. the (active-low) motor is OFF; `dirBit = true` means direction
up/opening, `false` means down/closing.  Button inputs are modelled
as the already-inverted active-low levels (`true` = pressed), exactly
the value `!(PIND & (1<<CLOSE))` the loop computes.
-/

namespace SBMI

/-- Symbolic state names (`#define`s, main.c lines 146-155). -/
def INIT : Nat := 0

def IDLE : Nat := 1

def CLOSE_CHECK : Nat := 2

def OPEN_CHECK : Nat := 3

def OPEN_AUTO : Nat := 4

def CLOSE_AUTO : Nat := 5

def CLOSE_MANUAL : Nat := 6

def OPEN_MANUAL : Nat := 7

def OPEN_X : Nat := 8

def ILLEGAL : Nat := 255

/-- 0.5 s window distinguishing quick from slow clicks (main.c line 164). -/
def CHECK_TIME : Nat := 500

/-- 14 s boot forced-travel duration (main.c line 165). -/
def INIT_TIME : Nat := 14000

/-- 13.2 s of travel time = full height (main.c line 167). -/
def MAX_HEIGHT : Nat := 13200

/-- Travel time before the slats separate from the base (main.c line 168). -/
def OPEN_TIME : Nat := 2500

/-- 10% opening step: `(MAX_HEIGHT-OPEN_TIME)/10` (main.c line 169). -/
def OPEN_10 : Nat := (MAX_HEIGHT - OPEN_TIME) / 10

/-- The global mutable state of the firmware (main.c lines 179-191 plus
the two PORTB output bits the code drives). -/
structure Sys where
  /-- `OpenBtn`: open-button level sampled on the previous pass. -/
  openBtn : Bool
  /-- `CloseBtn`: close-button level sampled on the previous pass. -/
  closeBtn : Bool
  /-- `USB_input`: pending serial byte; `0` doubles as the empty sentinel. -/
  usbInput : Nat
  /-- `state`: current state-machine state (one of the symbolic names). -/
  state : Nat
  /-- `height_reference`: target height for the OPEN_X state. -/
  height_reference : Nat
  /-- `height`: estimated current height in ms of travel time. -/
  height : Nat
  /-- `check_delay`: countdown timer (classification window / boot timer). -/
  check_delay : Nat
  /-- PORTB bit MOTOR: `true` = bit set = motor OFF (active low). -/
  motorBit : Bool
  /-- PORTB bit DIR: `true` = direction up (opening), `false` = down (closing). -/
  dirBit : Bool
  deriving Repr, DecidableEq

/-- State after reset, before the first loop pass: `config_io` leaves the
motor bit set (motor off) and the DIR bit clear; the globals carry their
initializers (main.c lines 179-191, 198). -/
def initState : Sys :=
  { openBtn := false
    closeBtn := false
    usbInput := 0
    state := INIT
    height_reference := 0
    height := MAX_HEIGHT
    check_delay := INIT_TIME
    motorBit := true
    dirBit := false }

/-- `ISR(TIMER2_OVF_vect)` (main.c lines 236-249): every 1 ms, move `height`
by one step according to the motor output bits (saturating at 0 and
MAX_HEIGHT) and count `check_delay` down toward 0. -/
def tick (s : Sys) : Sys :=
  let h :=
    if s.motorBit = false ∧ s.dirBit = false ∧ s.height ≠ 0 then s.height - 1
    else if s.motorBit = false ∧ s.dirBit = true ∧ s.height < MAX_HEIGHT then s.height + 1
    else s.height
  let cd := if s.check_delay ≠ 0 then s.check_delay - 1 else s.check_delay
  { s with height := h, check_delay := cd }

/-- `ISR(USART_RX_vect)` (main.c lines 231-234): store the received byte in
`USB_input` and echo it back; the second component is the echoed byte. -/
def usartRx (s : Sys) (b : Nat) : Sys × Nat :=
  let v := b % 256
  ({ s with usbInput := v }, v)

/-- The serial-directive check at the top of the loop (main.c lines 276-295):
if a byte is pending and the machine is not in INIT, decode it (`'u'` = 117,
`'0'` = 48, `'1'`-`'9'` = 49-57, `'g'` = 103) and force the corresponding
state; in every non-empty case the pending slot is cleared. -/
def directive (s : Sys) : Sys :=
  if s.usbInput ≠ 0 then
    let t :=
      if s.state ≠ INIT then
        if s.usbInput = 117 then { s with state := OPEN_AUTO }
        else if s.usbInput = 48 then { s with state := CLOSE_AUTO }
        else if 48 < s.usbInput ∧ s.usbInput ≤ 57 then
          { s with height_reference := OPEN_10 * (s.usbInput - 48) + OPEN_TIME
                   state := OPEN_X }
        else if s.usbInput = 103 then
          { s with height_reference := OPEN_TIME, state := OPEN_X }
        else s
      else s
    { t with usbInput := 0 }
  else s

/-- The `switch (state)` body of the loop (main.c lines 297-421).  Each case
first drives the PORTB output bits, then evaluates its transition conditions
on the updated record `t` (identical to `s` on every field the conditions
read).  `reClose`/`reOpen` are the rising-edge flags computed at the top of
the pass; the button levels were already stored in `closeBtn`/`openBtn`. -/
def switchStep (s : Sys) (reClose reOpen : Bool) : Sys :=
  if s.state = INIT then
    let t := { s with motorBit := false, dirBit := true }
    if t.check_delay = 0 then { t with state := IDLE } else t
  else if s.state = IDLE then
    let t := { s with motorBit := true }
    if reClose = true ∧ t.height ≠ 0 then
      { t with state := CLOSE_CHECK, check_delay := CHECK_TIME }
    else if reOpen = true ∧ t.height ≠ MAX_HEIGHT then
      { t with state := OPEN_CHECK, check_delay := CHECK_TIME }
    else t
  else if s.state = CLOSE_CHECK then
    let t := { s with motorBit := false, dirBit := false }
    if t.height = 0 then { t with state := IDLE }
    else if t.closeBtn = false then { t with state := CLOSE_AUTO }
    else if t.check_delay = 0 then { t with state := CLOSE_MANUAL }
    else if t.openBtn = true then { t with state := IDLE }
    else t
  else if s.state = OPEN_CHECK then
    let t := { s with motorBit := false, dirBit := true }
    if t.height = MAX_HEIGHT then { t with state := IDLE }
    else if t.openBtn = false then { t with state := OPEN_AUTO }
    else if t.check_delay = 0 then { t with state := OPEN_MANUAL }
    else if t.closeBtn = true then { t with state := IDLE }
    else t
  else if s.state = OPEN_AUTO then
    let t := { s with motorBit := false, dirBit := true }
    if t.height = MAX_HEIGHT ∨ t.openBtn = true then { t with state := IDLE }
    else if t.closeBtn = true then
      { t with state := CLOSE_CHECK, check_delay := CHECK_TIME }
    else t
  else if s.state = CLOSE_AUTO then
    let t := { s with motorBit := false, dirBit := false }
    if t.height = 0 ∨ t.closeBtn = true then { t with state := IDLE }
    else if t.openBtn = true then
      { t with state := OPEN_CHECK, check_delay := CHECK_TIME }
    else t
  else if s.state = CLOSE_MANUAL then
    let t := { s with motorBit := false, dirBit := false }
    if t.closeBtn = false ∨ t.height = 0 ∨ t.openBtn = true then
      { t with state := IDLE }
    else t
  else if s.state = OPEN_MANUAL then
    let t := { s with motorBit := false, dirBit := true }
    if t.openBtn = false ∨ t.height = MAX_HEIGHT ∨ t.closeBtn = true then
      { t with state := IDLE }
    else t
  else if s.state = OPEN_X then
    if s.height_reference < s.height then { s with motorBit := false, dirBit := false }
    else if s.height < s.height_reference then { s with motorBit := false, dirBit := true }
    else if s.height = s.height_reference then { s with state := IDLE }
    else s
  else if s.state = ILLEGAL then
    { s with motorBit := true }
  else
    { s with motorBit := true, state := ILLEGAL }

/-- One pass of the infinite control loop (main.c lines 266-430): sample the
button levels (`closeP`/`openP` are the pressed levels of the two active-low
lines), derive the rising edges from the previous levels, run the serial
directive check, then the state switch. -/
def controlPass (s : Sys) (closeP openP : Bool) : Sys :=
  let reClose := closeP && !s.closeBtn
  let reOpen := openP && !s.openBtn
  let s1 := { s with closeBtn := closeP, openBtn := openP }
  let s2 := directive s1
  switchStep s2 reClose reOpen

/-- The three kinds of events the system reacts to: a 1 ms timer tick, the
arrival of a serial byte, and one pass of the control loop with given
button levels. -/
inductive Ev where
  | tick : Ev
  | rx (b : Nat) : Ev
  | pass (closeP openP : Bool) : Ev
  deriving Repr, DecidableEq

/-- Small-step transition: apply one event to the system state. -/
def stepEv (s : Sys) : Ev → Sys
  | Ev.tick => tick s
  | Ev.rx b => (usartRx s b).1
  | Ev.pass c o => controlPass s c o

/-- The states reachable from reset under any interleaving of events. -/
inductive Reachable : Sys → Prop
  | init : Reachable initState
  | step (s : Sys) (e : Ev) : Reachable s → Reachable (stepEv s e)

/-! ## Frame lemmas: which functions leave which fields alone -/

theorem switchStep_height (s : Sys) (a b : Bool) : (switchStep s a b).height = s.height := by
  simp [switchStep, apply_ite Sys.height]

theorem directive_height (s : Sys) : (directive s).height = s.height := by
  simp [directive, apply_ite Sys.height]

theorem controlPass_height (s : Sys) (c o : Bool) :
    (controlPass s c o).height = s.height := by
  simp only [controlPass]
  rw [switchStep_height, directive_height]

theorem switchStep_href (s : Sys) (a b : Bool) :
    (switchStep s a b).height_reference = s.height_reference := by
  simp [switchStep, apply_ite Sys.height_reference]

theorem switchStep_usbInput (s : Sys) (a b : Bool) :
    (switchStep s a b).usbInput = s.usbInput := by
  simp [switchStep, apply_ite Sys.usbInput]

theorem directive_usbInput (s : Sys) : (directive s).usbInput = 0 ∨ directive s = s := by
  unfold directive
  split
  · left
    repeat' split <;> rfl
  · right
    rfl

/-- The control loop never writes `height`: only the timer interrupt moves it. -/
theorem height_le_of_reachable (s : Sys) (hs : Reachable s) : s.height ≤ MAX_HEIGHT := by
  induction hs with
  | init => exact Nat.le_refl _
  | step t e _ ih =>
    cases e with
    | tick =>
      show (tick t).height ≤ MAX_HEIGHT
      unfold tick
      simp only
      split
      · omega
      · split <;> omega
    | rx b => exact ih
    | pass c o =>
      show (controlPass t c o).height ≤ MAX_HEIGHT
      rw [controlPass_height]
      exact ih

/-- The `switch` on a state whose value is `ILLEGAL` only turns the motor
off. -/
theorem switchStep_illegal (s : Sys) (a b : Bool) (hs : s.state = ILLEGAL) :
    switchStep s a b = { s with motorBit := true } := by
  simp [switchStep, hs, ILLEGAL, INIT, IDLE, CLOSE_CHECK, OPEN_CHECK,
    OPEN_AUTO, CLOSE_AUTO, CLOSE_MANUAL, OPEN_MANUAL, OPEN_X]

/-- A pending byte that is none of the mapped directive bytes never changes
`state`. -/
theorem directive_state_unmapped (s : Sys) (h1 : s.usbInput ≠ 117)
    (h2 : s.usbInput ≠ 48) (h3 : ¬(48 < s.usbInput ∧ s.usbInput ≤ 57))
    (h4 : s.usbInput ≠ 103) : (directive s).state = s.state := by
  unfold directive
  repeat' split <;> simp_all

/-- A pending mapped directive byte always forces one of the directive
target states (`OPEN_AUTO`, `CLOSE_AUTO`, `OPEN_X`) when the machine is
not in `INIT`. -/
theorem directive_state_mapped (s : Sys) (hst : s.state ≠ INIT)
    (hm : s.usbInput = 117 ∨ s.usbInput = 48 ∨
      (48 < s.usbInput ∧ s.usbInput ≤ 57) ∨ s.usbInput = 103) :
    (directive s).state = OPEN_AUTO ∨ (directive s).state = CLOSE_AUTO ∨
    (directive s).state = OPEN_X := by
  rcases hm with h | h | h | h
  · left
    simp [directive, h, hst]
  · right; left
    simp [directive, h, hst]
  · right; right
    have h0 : s.usbInput ≠ 0 := by omega
    have h117 : s.usbInput ≠ 117 := by omega
    have h48 : s.usbInput ≠ 48 := by omega
    simp [directive, hst, h0, h117, h48, h]
  · right; right
    simp [directive, h, hst]

/-- The `switch` never produces `ILLEGAL` from one of the three directive
target states. -/
theorem switchStep_state_ne_illegal (s : Sys) (a b : Bool)
    (h : s.state = OPEN_AUTO ∨ s.state = CLOSE_AUTO ∨ s.state = OPEN_X) :
    (switchStep s a b).state ≠ ILLEGAL := by
  rcases h with h | h | h
  all_goals simp [switchStep, h, INIT, IDLE, CLOSE_CHECK, OPEN_CHECK,
    OPEN_AUTO, CLOSE_AUTO, CLOSE_MANUAL, OPEN_MANUAL, OPEN_X, ILLEGAL,
    apply_ite Sys.state]
  all_goals split
  all_goals try split
  all_goals try split
  all_goals simp

/-! ## Claims -/

/-- C1: On every reachable state, Position (`height`) lies in `[0, MAX_HEIGHT]`
(the lower bound holds by the `Nat` model; the code guards every decrement with
a non-zero test, so the counter never underflows), and a tick of the Position
Estimator decrements it by exactly 1 when the motor is enabled (MOTOR bit
clear) with direction closing (DIR bit clear) and Position > 0, increments it
by exactly 1 when the motor is enabled with direction opening and
Position < MAX_HEIGHT, leaves it unchanged when the motor is off, and
saturates silently at both bounds. -/
theorem position_estimator_bounds (s : Sys) (hs : Reachable s) :
    s.height ≤ MAX_HEIGHT ∧
    (tick s).height ≤ MAX_HEIGHT ∧
    (s.motorBit = false → s.dirBit = false → s.height ≠ 0 →
      (tick s).height = s.height - 1) ∧
    (s.motorBit = false → s.dirBit = true → s.height < MAX_HEIGHT →
      (tick s).height = s.height + 1) ∧
    (s.motorBit = true → (tick s).height = s.height) ∧
    (s.motorBit = false → s.dirBit = false → s.height = 0 →
      (tick s).height = s.height) ∧
    (s.motorBit = false → s.dirBit = true → s.height = MAX_HEIGHT →
      (tick s).height = s.height) := by
  have hle := height_le_of_reachable s hs
  have htick : (tick s).height ≤ MAX_HEIGHT := by
    have := height_le_of_reachable (stepEv s Ev.tick) (Reachable.step s Ev.tick hs)
    exact this
  refine ⟨hle, htick, ?_, ?_, ?_, ?_, ?_⟩
  · intro hm hd hh
    simp [tick, hm, hd, hh]
  · intro hm hd hh
    simp [tick, hm, hd, hh]
  · intro hm
    simp [tick, hm]
  · intro hm hd hh
    simp [tick, hm, hd, hh]
  · intro hm hd hh
    simp [tick, hm, hd, hh]

/-- C1 witness at the reset state (motor off there, so a tick does not move
the position). -/
theorem position_estimator_bounds_witness :
    initState.height ≤ MAX_HEIGHT ∧ (tick initState).height = initState.height :=
  ⟨(position_estimator_bounds initState Reachable.init).1,
    (position_estimator_bounds initState Reachable.init).2.2.2.2.1 rfl⟩

/-- C8: In the Boot state (`INIT`), every control pass drives the motor
enabled (MOTOR bit clear) with direction opening (DIR bit set); neither
button levels nor serial directives change the state (a pending byte is
discarded: the slot is cleared, `state` is untouched by it); the pass exits
to `IDLE` exactly when `check_delay` has reached 0; and `check_delay` was
preloaded at startup with `INIT_TIME = 14000` ms. -/
theorem boot_behavior (s : Sys) (c o : Bool) (hs : s.state = INIT) :
    (controlPass s c o).motorBit = false ∧
    (controlPass s c o).dirBit = true ∧
    (s.check_delay = 0 → (controlPass s c o).state = IDLE) ∧
    (s.check_delay ≠ 0 → (controlPass s c o).state = INIT) ∧
    (controlPass s c o).check_delay = s.check_delay ∧
    (controlPass s c o).height_reference = s.height_reference ∧
    (controlPass s c o).usbInput = 0 ∧
    initState.check_delay = INIT_TIME ∧ INIT_TIME = 14000 := by
  obtain ⟨ob, cb, ui, st, hr, h, cd, mb, db⟩ := s
  simp only at hs
  subst hs
  by_cases hui : ui = 0 <;>
    simp [controlPass, directive, switchStep, hui, INIT, IDLE, INIT_TIME,
      apply_ite Sys.state, apply_ite Sys.check_delay,
      apply_ite Sys.height_reference, apply_ite Sys.usbInput, initState] <;>
    split <;> simp_all

/-- C8 witness: at reset `check_delay = 14000 ≠ 0`, so the first pass stays
in Boot. -/
theorem boot_behavior_witness :
    (controlPass initState false false).state = INIT :=
  (boot_behavior initState false false rfl).2.2.2.1 (by decide)

/-- C2: From `IDLE` with Position > 0 and no pending serial byte, a rising
edge of the close button (level `c = true`, previous level `closeBtn = false`)
enters `CLOSE_CHECK` and resets `check_delay` to `CHECK_TIME = 500` ms.  In
`CLOSE_CHECK` the exit checks are evaluated in exactly this order: Position
= 0 → `IDLE`, close button released → `CLOSE_AUTO`, timer expired →
`CLOSE_MANUAL`, open button pressed → `IDLE`; hence a press released before
the window elapses (indeed, released on any pass with Position > 0, even one
where the timer already expired) resolves to `CLOSE_AUTO`, and a press still
held when the timer expires resolves to `CLOSE_MANUAL`.  `OPEN_CHECK` is
symmetric with open/close swapped. -/
theorem press_classification_order (s : Sys) (c o : Bool) (h0 : s.usbInput = 0) :
    (s.state = IDLE → c = true → s.closeBtn = false → s.height ≠ 0 →
      (controlPass s c o).state = CLOSE_CHECK ∧
      (controlPass s c o).check_delay = CHECK_TIME) ∧
    (s.state = CLOSE_CHECK →
      (controlPass s c o).state =
        if s.height = 0 then IDLE
        else if c = false then CLOSE_AUTO
        else if s.check_delay = 0 then CLOSE_MANUAL
        else if o = true then IDLE
        else CLOSE_CHECK) ∧
    (s.state = CLOSE_CHECK → c = false → s.height ≠ 0 →
      (controlPass s c o).state = CLOSE_AUTO) ∧
    (s.state = CLOSE_CHECK → c = true → s.height ≠ 0 → s.check_delay = 0 →
      (controlPass s c o).state = CLOSE_MANUAL) ∧
    (s.state = IDLE → o = true → s.openBtn = false → s.height ≠ MAX_HEIGHT →
      c = false →
      (controlPass s c o).state = OPEN_CHECK ∧
      (controlPass s c o).check_delay = CHECK_TIME) ∧
    (s.state = OPEN_CHECK →
      (controlPass s c o).state =
        if s.height = MAX_HEIGHT then IDLE
        else if o = false then OPEN_AUTO
        else if s.check_delay = 0 then OPEN_MANUAL
        else if c = true then IDLE
        else OPEN_CHECK) ∧
    CHECK_TIME = 500 := by
  obtain ⟨ob, cb, ui, st, hr, h, cd, mb, db⟩ := s
  simp only at h0
  subst h0
  refine ⟨?_, ?_, ?_, ?_, ?_, ?_, rfl⟩ <;>
    intro hs <;>
    simp only at hs <;>
    subst hs <;>
    simp_all [controlPass, directive, switchStep, INIT, IDLE, CLOSE_CHECK,
      OPEN_CHECK, OPEN_AUTO, CLOSE_AUTO, CLOSE_MANUAL, OPEN_MANUAL, OPEN_X,
      ILLEGAL, CHECK_TIME, apply_ite Sys.state, apply_ite Sys.check_delay]

/-- C2 witness: from `IDLE` at height 5 with no byte pending, a close-button
rising edge enters `CLOSE_CHECK` with the 500 ms window loaded. -/
theorem press_classification_order_witness :
    (controlPass { initState with state := IDLE, height := 5 } true false).state
        = CLOSE_CHECK ∧
    (controlPass { initState with state := IDLE, height := 5 } true false).check_delay
        = CHECK_TIME :=
  (press_classification_order { initState with state := IDLE, height := 5 }
    true false rfl).1 rfl rfl rfl (by decide)

/-- C3: Direction-reversal policy.  In `CLOSE_MANUAL`, a pass with the open
button pressed goes to `IDLE` (no reversal), unconditionally on the other
inputs.  In `CLOSE_AUTO`, a pass with the open button pressed (close button
not pressed, shutter not already fully closed — the conditions the code
checks first) goes to `OPEN_CHECK` with `check_delay` reset to `CHECK_TIME`:
reversal while energized is permitted in Auto.  `OPEN_MANUAL`/`OPEN_AUTO`
are symmetric. -/
theorem reversal_policy (s : Sys) (c o : Bool) (h0 : s.usbInput = 0) :
    (s.state = CLOSE_MANUAL → o = true → (controlPass s c o).state = IDLE) ∧
    (s.state = CLOSE_AUTO → o = true → c = false → s.height ≠ 0 →
      (controlPass s c o).state = OPEN_CHECK ∧
      (controlPass s c o).check_delay = CHECK_TIME) ∧
    (s.state = OPEN_MANUAL → c = true → (controlPass s c o).state = IDLE) ∧
    (s.state = OPEN_AUTO → c = true → o = false → s.height ≠ MAX_HEIGHT →
      (controlPass s c o).state = CLOSE_CHECK ∧
      (controlPass s c o).check_delay = CHECK_TIME) := by
  obtain ⟨ob, cb, ui, st, hr, h, cd, mb, db⟩ := s
  simp only at h0
  subst h0
  refine ⟨?_, ?_, ?_, ?_⟩ <;>
    intro hs <;>
    simp only at hs <;>
    subst hs <;>
    simp_all [controlPass, directive, switchStep, INIT, IDLE, CLOSE_CHECK,
      OPEN_CHECK, OPEN_AUTO, CLOSE_AUTO, CLOSE_MANUAL, OPEN_MANUAL, OPEN_X,
      ILLEGAL, CHECK_TIME, apply_ite Sys.state, apply_ite Sys.check_delay]

/-- C3 witness: in `CLOSE_MANUAL`, pressing the open button stops the
machine (next state `IDLE`); in `CLOSE_AUTO` at height 5, pressing only the
open button reverses into `OPEN_CHECK` with the window reloaded. -/
theorem reversal_policy_witness :
    (controlPass { initState with state := CLOSE_MANUAL, height := 5
                                  closeBtn := true } true true).state = IDLE ∧
    (controlPass { initState with state := CLOSE_AUTO, height := 5 }
        false true).state = OPEN_CHECK :=
  ⟨(reversal_policy { initState with state := CLOSE_MANUAL, height := 5
                                     closeBtn := true } true true rfl).1 rfl rfl,
    ((reversal_policy { initState with state := CLOSE_AUTO, height := 5 }
        false true rfl).2.1 rfl rfl rfl (by decide)).1⟩

/-- C4: The serial-directive check.  With the machine not in Boot (`INIT`):
byte 117 (`'u'`) forces `OPEN_AUTO`; byte 48 (`'0'`) forces `CLOSE_AUTO`; a
digit byte `b` with 48 < b ≤ 57 (`'1'`-`'9'`) sets
`height_reference = OPEN_10*(b-48) + OPEN_TIME` and forces `OPEN_X`; byte
103 (`'g'`) sets `height_reference = OPEN_TIME` and forces `OPEN_X`; any
other non-zero byte changes nothing except the pending slot; and in every
case — including Boot, where a pending byte is discarded — the pending slot
holds 0 after the check. -/
theorem directive_decoding (s : Sys) :
    (s.state ≠ INIT → s.usbInput = 117 →
      directive s = { s with state := OPEN_AUTO, usbInput := 0 }) ∧
    (s.state ≠ INIT → s.usbInput = 48 →
      directive s = { s with state := CLOSE_AUTO, usbInput := 0 }) ∧
    (s.state ≠ INIT → 48 < s.usbInput → s.usbInput ≤ 57 →
      directive s = { s with state := OPEN_X, usbInput := 0
                             height_reference :=
                               OPEN_10 * (s.usbInput - 48) + OPEN_TIME }) ∧
    (s.state ≠ INIT → s.usbInput = 103 →
      directive s = { s with height_reference := OPEN_TIME, state := OPEN_X
                             usbInput := 0 }) ∧
    (s.state ≠ INIT → s.usbInput ≠ 0 → s.usbInput ≠ 117 → s.usbInput ≠ 48 →
      ¬(48 < s.usbInput ∧ s.usbInput ≤ 57) → s.usbInput ≠ 103 →
      directive s = { s with usbInput := 0 }) ∧
    (s.state = INIT → s.usbInput ≠ 0 → directive s = { s with usbInput := 0 }) ∧
    (directive s).usbInput = 0 := by
  obtain ⟨ob, cb, ui, st, hr, h, cd, mb, db⟩ := s
  refine ⟨?_, ?_, ?_, ?_, ?_, ?_, ?_⟩
  · intro h1 h2
    simp only [INIT] at h1
    simp only at h2
    subst h2
    simp [directive, INIT, h1]
  · intro h1 h2
    simp only [INIT] at h1
    simp only at h2
    subst h2
    simp [directive, INIT, h1]
  · intro h1 h2 h3
    simp only [INIT] at h1
    simp only at h2 h3
    have hne0 : ui ≠ 0 := by omega
    have hne117 : ui ≠ 117 := by omega
    have hne48 : ui ≠ 48 := by omega
    simp [directive, INIT, h1, hne0, hne117, hne48, h2, h3]
  · intro h1 h2
    simp only [INIT] at h1
    simp only at h2
    subst h2
    simp [directive, INIT, h1]
  · intro h1 h2 h3 h4 h5 h6
    simp only [INIT] at h1
    simp [directive, INIT, h1, h2, h3, h4, h5, h6]
  · intro h1 h2
    simp only at h1
    subst h1
    simp [directive, INIT, h2]
  · by_cases hui : ui = 0
    · simp [directive, hui]
    · simp only [directive]
      rw [if_pos hui]

/-- C4 witness: byte `'5'` (53) received in `IDLE` loads
`height_reference = OPEN_10*5 + OPEN_TIME` and forces `OPEN_X`. -/
theorem directive_decoding_witness :
    directive { initState with state := IDLE, usbInput := 53 } =
      { initState with state := OPEN_X, usbInput := 0
                       height_reference := OPEN_10 * 5 + OPEN_TIME } :=
  (directive_decoding { initState with state := IDLE, usbInput := 53 }).2.2.1
    (by decide) (by decide) (by decide)

/-- C5 counterexample: in `OPEN_X` at `height = height_reference = OPEN_TIME`
with the motor still commanded closing from the previous pass (MOTOR bit
clear), the pass transitions to `IDLE` but leaves the MOTOR bit clear — the
motor-enable output is NOT disabled on the pass that observes
Position = HeightReference (the `height == height_reference` branch writes
only `state`, not PORTB). -/
theorem targetseek_motor_counterexample :
    (controlPass { initState with state := OPEN_X, height := OPEN_TIME,
                                  height_reference := OPEN_TIME,
                                  motorBit := false, dirBit := false }
      false false).state = IDLE ∧
    ¬ (controlPass { initState with state := OPEN_X, height := OPEN_TIME,
                                    height_reference := OPEN_TIME,
                                    motorBit := false, dirBit := false }
      false false).motorBit = true := by decide

/-- C5 (amended): In `OPEN_X` with no pending byte, each pass commands motor
enabled (MOTOR bit clear) closing when Position > HeightReference, motor
enabled opening when Position < HeightReference (state unchanged in both
cases), and when Position = HeightReference it transitions to `IDLE` leaving
the motor and direction outputs unchanged on that pass (the motor is
disabled on the following pass, by the `IDLE` case); no button input
affects this state (the result below does not depend on `c`, `o`). -/
theorem targetseek_behavior (s : Sys) (c o : Bool) (h0 : s.usbInput = 0) :
    (s.state = OPEN_X → s.height_reference < s.height →
      (controlPass s c o).state = OPEN_X ∧
      (controlPass s c o).motorBit = false ∧
      (controlPass s c o).dirBit = false) ∧
    (s.state = OPEN_X → s.height < s.height_reference →
      (controlPass s c o).state = OPEN_X ∧
      (controlPass s c o).motorBit = false ∧
      (controlPass s c o).dirBit = true) ∧
    (s.state = OPEN_X → s.height = s.height_reference →
      (controlPass s c o).state = IDLE ∧
      (controlPass s c o).motorBit = s.motorBit ∧
      (controlPass s c o).dirBit = s.dirBit) ∧
    (s.state = IDLE → (controlPass s c o).motorBit = true) := by
  obtain ⟨ob, cb, ui, st, hr, h, cd, mb, db⟩ := s
  simp only at h0
  subst h0
  refine ⟨?_, ?_, ?_, ?_⟩
  all_goals intro hs
  all_goals simp only at hs
  all_goals subst hs
  all_goals simp_all [controlPass, directive, switchStep, INIT, IDLE,
    CLOSE_CHECK, OPEN_CHECK, OPEN_AUTO, CLOSE_AUTO, CLOSE_MANUAL, OPEN_MANUAL,
    OPEN_X, ILLEGAL, apply_ite Sys.state, apply_ite Sys.motorBit,
    apply_ite Sys.dirBit]
  all_goals omega

/-- C5 witness: seeking down toward `OPEN_TIME` from height 3000 keeps the
machine in `OPEN_X` with motor enabled, direction closing. -/
theorem targetseek_behavior_witness :
    (controlPass { initState with state := OPEN_X, height := 3000,
                                  height_reference := OPEN_TIME }
      false false).state = OPEN_X ∧
    (controlPass { initState with state := OPEN_X, height := 3000,
                                  height_reference := OPEN_TIME }
      false false).motorBit = false ∧
    (controlPass { initState with state := OPEN_X, height := 3000,
                                  height_reference := OPEN_TIME }
      false false).dirBit = false :=
  (targetseek_behavior { initState with state := OPEN_X, height := 3000,
                                        height_reference := OPEN_TIME }
    false false rfl).1 rfl (by decide)

/-- C6 counterexample: in `OPEN_AUTO` at Position = MAX_HEIGHT (motor off
beforehand), the pass transitions to `IDLE` but the motor-enable output is
asserted on that same pass (the case enables the motor at its start, and
the transition branch does not write PORTB), refuting a same-pass disable. -/
theorem opening_limit_counterexample :
    (controlPass { initState with state := OPEN_AUTO, height := MAX_HEIGHT,
                                  motorBit := true }
      false false).state = IDLE ∧
    ¬ (controlPass { initState with state := OPEN_AUTO, height := MAX_HEIGHT,
                                    motorBit := true }
      false false).motorBit = true := by decide

/-- C6 (amended): On a pass in `OPEN_AUTO` or `OPEN_MANUAL` with
Position = MAX_HEIGHT (and no pending byte), the state transitions to
`IDLE` on that same pass, but the motor-enable output is asserted (MOTOR
bit clear, direction opening) on that pass; it is disabled on the following
pass, when the `IDLE` case runs. -/
theorem opening_limit_idle (s : Sys) (c o : Bool) (h0 : s.usbInput = 0) :
    (s.state = OPEN_AUTO → s.height = MAX_HEIGHT →
      (controlPass s c o).state = IDLE ∧
      (controlPass s c o).motorBit = false ∧
      (controlPass s c o).dirBit = true) ∧
    (s.state = OPEN_MANUAL → s.height = MAX_HEIGHT →
      (controlPass s c o).state = IDLE ∧
      (controlPass s c o).motorBit = false ∧
      (controlPass s c o).dirBit = true) ∧
    (s.state = IDLE → (controlPass s c o).motorBit = true) := by
  obtain ⟨ob, cb, ui, st, hr, h, cd, mb, db⟩ := s
  simp only at h0
  subst h0
  refine ⟨?_, ?_, ?_⟩ <;>
    intro hs <;>
    simp only at hs <;>
    subst hs <;>
    simp_all [controlPass, directive, switchStep, INIT, IDLE, CLOSE_CHECK,
      OPEN_CHECK, OPEN_AUTO, CLOSE_AUTO, CLOSE_MANUAL, OPEN_MANUAL, OPEN_X,
      ILLEGAL, apply_ite Sys.state, apply_ite Sys.motorBit,
      apply_ite Sys.dirBit]

/-- C6 witness: `OPEN_MANUAL` at the top transitions to `IDLE` with the
motor output still asserted on that pass. -/
theorem opening_limit_idle_witness :
    (controlPass { initState with state := OPEN_MANUAL, height := MAX_HEIGHT,
                                  openBtn := true }
      false true).state = IDLE ∧
    (controlPass { initState with state := OPEN_MANUAL, height := MAX_HEIGHT,
                                  openBtn := true }
      false true).motorBit = false ∧
    (controlPass { initState with state := OPEN_MANUAL, height := MAX_HEIGHT,
                                  openBtn := true }
      false true).dirBit = true :=
  (opening_limit_idle { initState with state := OPEN_MANUAL,
                                       height := MAX_HEIGHT, openBtn := true }
    false true rfl).2.1 rfl rfl

/-- C7 counterexample: from `ILLEGAL`, receiving serial byte 117 (`'u'`) and
then running one control pass leaves the machine in a state that is not
`ILLEGAL` (the directive check at the top of the loop is gated only on
`INIT`, not on `ILLEGAL`, so a pending directive overrides `ILLEGAL` like
any other non-Boot state) — refuting "no input whatsoever ever causes a
transition out of Illegal". -/
theorem illegal_escape_counterexample :
    ({ initState with state := ILLEGAL, height := 0 } : Sys).state = ILLEGAL ∧
    (stepEv (stepEv { initState with state := ILLEGAL, height := 0 }
        (Ev.rx 117)) (Ev.pass false false)).state = OPEN_AUTO ∧
    ¬ (stepEv (stepEv { initState with state := ILLEGAL, height := 0 }
        (Ev.rx 117)) (Ev.pass false false)).state = ILLEGAL := by decide

/-- C7 (amended): Once in `ILLEGAL`: a tick or a serial-byte arrival never
changes the state; a control pass whose pending slot is empty or holds an
unmapped byte keeps the state `ILLEGAL` and disables the motor output on
that pass.  However, a control pass that observes any pending mapped
directive byte (117 `'u'`, 48 `'0'`, 49-57 `'1'`-`'9'`, 103 `'g'`) does
transition out of `ILLEGAL` — the resulting state is never `ILLEGAL` —
because the directive override at the top of the loop is gated only on
Boot (`INIT`). -/
theorem illegal_absorbing (s : Sys) (hs : s.state = ILLEGAL) :
    (tick s).state = ILLEGAL ∧
    (∀ b, ((usartRx s b).1).state = ILLEGAL) ∧
    (∀ c o, s.usbInput = 0 →
      (controlPass s c o).state = ILLEGAL ∧
      (controlPass s c o).motorBit = true) ∧
    (∀ c o, s.usbInput ≠ 117 → s.usbInput ≠ 48 →
      ¬(48 < s.usbInput ∧ s.usbInput ≤ 57) → s.usbInput ≠ 103 →
      (controlPass s c o).state = ILLEGAL ∧
      (controlPass s c o).motorBit = true) ∧
    (∀ c o, (s.usbInput = 117 ∨ s.usbInput = 48 ∨
        (48 < s.usbInput ∧ s.usbInput ≤ 57) ∨ s.usbInput = 103) →
      (controlPass s c o).state ≠ ILLEGAL) := by
  refine ⟨hs, fun b => hs, ?_, ?_, ?_⟩
  · intro c o h0
    have hd : directive { s with closeBtn := c, openBtn := o } =
        { s with closeBtn := c, openBtn := o } := by
      unfold directive
      rw [if_neg]
      simp [h0]
    have e : controlPass s c o =
        { s with closeBtn := c, openBtn := o, motorBit := true } := by
      show switchStep (directive { s with closeBtn := c, openBtn := o })
          (c && !s.closeBtn) (o && !s.openBtn) = _
      rw [hd]
      exact switchStep_illegal _ _ _ hs
    rw [e]
    exact ⟨hs, rfl⟩
  · intro c o h1 h2 h3 h4
    have hA : (directive { s with closeBtn := c, openBtn := o }).state
        = s.state := directive_state_unmapped _ h1 h2 h3 h4
    have e : controlPass s c o =
        { directive { s with closeBtn := c, openBtn := o } with
          motorBit := true } := by
      show switchStep (directive { s with closeBtn := c, openBtn := o })
          (c && !s.closeBtn) (o && !s.openBtn) = _
      exact switchStep_illegal _ _ _ (by rw [hA]; exact hs)
    rw [e]
    constructor
    · show (directive { s with closeBtn := c, openBtn := o }).state = ILLEGAL
      rw [hA]
      exact hs
    · rfl
  · intro c o hm
    have hst : ({ s with closeBtn := c, openBtn := o } : Sys).state ≠ INIT := by
      show s.state ≠ INIT
      rw [hs]
      simp [ILLEGAL, INIT]
    show (switchStep (directive { s with closeBtn := c, openBtn := o })
        (c && !s.closeBtn) (o && !s.openBtn)).state ≠ ILLEGAL
    exact switchStep_state_ne_illegal _ _ _
      (directive_state_mapped { s with closeBtn := c, openBtn := o } hst hm)

/-- C7 witness: with no byte pending, a pass in `ILLEGAL` stays in `ILLEGAL`
with the motor disabled. -/
theorem illegal_absorbing_witness :
    (controlPass { initState with state := ILLEGAL } false false).state
        = ILLEGAL ∧
    (controlPass { initState with state := ILLEGAL } false false).motorBit
        = true :=
  (illegal_absorbing { initState with state := ILLEGAL } rfl).2.2.1
    false false rfl

/-- C9: A received NUL byte (0x00) is stored into the pending slot as the
value 0, which is exactly the slot's empty sentinel: the receive interrupt
still echoes it back, the machine's state is untouched by the arrival, the
directive check decodes nothing from an empty slot (it changes nothing at
all), and a control pass after receiving NUL is identical to a control pass
with no byte pending. -/
theorem nul_byte_ignored (s : Sys) (c o : Bool) :
    (usartRx s 0).1 = { s with usbInput := 0 } ∧
    (usartRx s 0).2 = 0 ∧
    ((usartRx s 0).1).state = s.state ∧
    directive { s with usbInput := 0 } = { s with usbInput := 0 } ∧
    controlPass ((usartRx s 0).1) c o = controlPass { s with usbInput := 0 } c o := by
  refine ⟨by simp [usartRx], rfl, rfl, by simp [directive], by simp [usartRx]⟩

/-- C10: Any pass changes `height_reference` either not at all or to a value
of the form `OPEN_10*d + OPEN_TIME` with `d ∈ 1..9`, or to `OPEN_TIME`; all
those values lie between 2500 and 12130 inclusive, strictly above 0 and
strictly below `MAX_HEIGHT = 13200`, so a `OPEN_X` target set this way is
never the fully-closed or fully-open position and is never blocked by the
Position Estimator's saturation bounds.  The tick and receive interrupts
never touch `height_reference`. -/
theorem height_reference_range (s : Sys) (c o : Bool) :
    ((controlPass s c o).height_reference = s.height_reference ∨
      (∃ d, 1 ≤ d ∧ d ≤ 9 ∧
        (controlPass s c o).height_reference = OPEN_10 * d + OPEN_TIME) ∨
      (controlPass s c o).height_reference = OPEN_TIME) ∧
    (∀ d, 1 ≤ d → d ≤ 9 →
      2500 ≤ OPEN_10 * d + OPEN_TIME ∧ OPEN_10 * d + OPEN_TIME ≤ 12130 ∧
      0 < OPEN_10 * d + OPEN_TIME ∧ OPEN_10 * d + OPEN_TIME < MAX_HEIGHT) ∧
    (OPEN_TIME = 2500 ∧ 0 < OPEN_TIME ∧ OPEN_TIME < MAX_HEIGHT) ∧
    (tick s).height_reference = s.height_reference ∧
    (∀ b, ((usartRx s b).1).height_reference = s.height_reference) := by
  refine ⟨?_, ?_, by refine ⟨rfl, by decide, by decide⟩, by simp [tick],
    fun b => rfl⟩
  · rw [show controlPass s c o =
        switchStep (directive { s with closeBtn := c, openBtn := o })
          (c && !s.closeBtn) (o && !s.openBtn) from rfl,
      switchStep_href]
    generalize hs1 : ({ s with closeBtn := c, openBtn := o } : Sys) = s1
    have hrs : s1.height_reference = s.height_reference := by rw [← hs1]
    rw [← hrs]
    unfold directive
    split
    · split
      · split
        · left; rfl
        · split
          · left; rfl
          · split
            · right; left
              rename_i hdig
              exact ⟨s1.usbInput - 48, by omega, by omega, rfl⟩
            · split
              · right; right; rfl
              · left; rfl
      · left; rfl
    · left; rfl
  · intro d h1 h9
    simp only [OPEN_10, OPEN_TIME, MAX_HEIGHT]
    norm_num
    omega

/-- C10 witness: the bound conjunct instantiated at `d = 9` (target 12130,
inside the open interval (0, MAX_HEIGHT)). -/
theorem height_reference_range_witness :
    2500 ≤ OPEN_10 * 9 + OPEN_TIME ∧ OPEN_10 * 9 + OPEN_TIME ≤ 12130 ∧
    0 < OPEN_10 * 9 + OPEN_TIME ∧ OPEN_10 * 9 + OPEN_TIME < MAX_HEIGHT :=
  (height_reference_range initState false false).2.1 9 (by decide) (by decide)

end SBMI
